import Mathlib

/-!
Verification of the `comfyui_bfl_api_connect` client
(`src/comfyui_bfl_api_connect/__init__.py`).

The Python program is embedded shallowly:

* pydantic models become Lean structures; their declared field constraints
  (`Field(ge=..., le=..., multiple_of=...)`, `NonNegativeInt`) become an
  executable validator `validateImageRequest` that collects one error entry
  per violated field, mirroring pydantic's field-by-field validation
  (pydantic v2: `model_dump` is the v2 serialization entry point, and an
  `T | None` annotated field without a default is *required*);
* HTTP responses become wire records (`SubmitWire`, `FetchWire`) holding the
  status code and the JSON fields the program reads;
* `run_flux` becomes a function from the submit response, the jitter stream
  of `random.randint(0, 1000)` draws, and the list of fetch responses, to a
  `RunTrace` recording the terminal outcome, the number of fetch calls and
  the sleep durations (in seconds, as rationals).
-/

/-- The `ImageVariant` enum (`flux-dev`, `flux-pro`, `flux-pro-1.1`). -/
inductive ImageVariant
  | dev
  | pro
  | proplus
deriving DecidableEq, Repr

/-- The wire string of each variant (the Python enum member value). -/
def ImageVariant.value : ImageVariant → String
  | .dev => "flux-dev"
  | .pro => "flux-pro"
  | .proplus => "flux-pro-1.1"

/-- The submission URL: `f"https://api.bfl.ml/v1/{str(variant.value)}"`. -/
def bflUrl (variant : ImageVariant) : String :=
  "https://api.bfl.ml/v1/" ++ variant.value

/-- The `StatusResponse` enum of the six recognized job statuses. -/
inductive StatusResponse
  | TaskNotFound
  | Pending
  | RequestModerated
  | ContentModerated
  | Ready
  | Error
deriving DecidableEq, Repr

/-- Parsing a wire status string into the enum: pydantic coerces the JSON
string onto the `str`-valued enum by value, failing on any other string. -/
def StatusResponse.fromString (s : String) : Option StatusResponse :=
  if s = "Task not found" then some .TaskNotFound
  else if s = "Pending" then some .Pending
  else if s = "Request Moderated" then some .RequestModerated
  else if s = "Content Moderated" then some .ContentModerated
  else if s = "Ready" then some .Ready
  else if s = "Error" then some .Error
  else none

/-- The `result` dict of a `ResultResponse`, modelled as an association list
from string keys to string values (the program only ever reads the
`"sample"` key and passes its value on as a URL). -/
abbrev ResultDict := List (String × String)

/-- The decoded `ResultResponse` pydantic model: `id: str`,
`status: StatusResponse`, `result: dict | None`. -/
structure ResultResponse where
  id : String
  status : StatusResponse
  result : Option ResultDict
deriving DecidableEq, Repr

/-- The JSON body of a fetch (`get_result`) response as the program sees it:
each pydantic field of `ResultResponse` is either absent (`none`) or
present.  `resultField = some none` is a present JSON `null`,
`resultField = some (some d)` a present dict. -/
structure FetchWire where
  code : Nat
  idField : Option String
  statusField : Option String
  resultField : Option (Option ResultDict)
deriving DecidableEq, Repr

/-- The submit response as the program sees it: HTTP status code and the
optional `id` field of the JSON body (`AsyncResponse` requires it). -/
structure SubmitWire where
  code : Nat
  idField : Option String
deriving DecidableEq, Repr

/-- Failures of decoding a fetch body into `ResultResponse`:
`shape` is a missing required field (pydantic v2 requires `id`, `status`
and `result` to be present), `badStatus` a present status string that is
not one of the six enum values. -/
inductive DecodeFail
  | shape
  | badStatus (s : String)
deriving DecidableEq, Repr

/-- `ResultResponse(**res.json())`: decode the fetch body, field by field. -/
def decodeResult (w : FetchWire) : Except DecodeFail ResultResponse :=
  match w.idField with
  | none => .error .shape
  | some i =>
    match w.statusField with
    | none => .error .shape
    | some s =>
      match StatusResponse.fromString s with
      | none => .error (.badStatus s)
      | some st =>
        match w.resultField with
        | none => .error .shape
        | some r => .ok { id := i, status := st, result := r }

/-- Terminal outcome of a `run_flux` execution. -/
inductive Outcome
  | submitHttpError (code : Nat)
  | submitDecodeError
  | fetchHttpError (code : Nat)
  | fetchDecodeError
  | protocolError (s : String)
  | readyUrl (url : String)
  | missingField
  | errorResult (result : Option ResultDict)
  | requestModerated
  | contentModerated
  | taskNotFound
  | exhausted
deriving DecidableEq, Repr

/-- Trace of one `run_flux` execution: the outcome, how many fetch
(`get_result`) calls were issued, and the duration of every sleep. -/
structure RunTrace where
  outcome : Outcome
  fetchCount : Nat
  sleeps : List ℚ
deriving DecidableEq, Repr

/-- One sleep: `time.sleep(0.5 * (2**n) + (random.randint(0, 1000) / 1000))`
with jitter draw `j`. -/
def sleepDur (n : Nat) (j : Nat) : ℚ :=
  (1 / 2) * 2 ^ n + j / 1000

/-- The `Ready` branch of the status match: `assert result is not None`,
then `result.get("sample")` with `assert sample_url is not None` (the
assertion failures are the `MissingFieldError` of the design), then the
sample URL is the terminal outcome. -/
def readyOutcome : Option ResultDict → Outcome
  | none => .missingField
  | some dict =>
    match dict.lookup "sample" with
    | none => .missingField
    | some url => .readyUrl url

/-- One iteration's handling of a fetch response (lines 98–124):
`res.raise_for_status()`, `ResultResponse(**res.json())`, then the match on
`result_response.status`.  `none` means status `Pending` — the loop
continues; `some o` is a terminal outcome. -/
def classifyFetch (f : FetchWire) : Option Outcome :=
  if 200 ≤ f.code ∧ f.code ≤ 299 then
    match decodeResult f with
    | .error .shape => some .fetchDecodeError
    | .error (.badStatus s) => some (.protocolError s)
    | .ok r =>
      match r.status with
      | .Ready => some (readyOutcome r.result)
      | .Error => some (.errorResult r.result)
      | .Pending => none
      | .RequestModerated => some .requestModerated
      | .ContentModerated => some .contentModerated
      | .TaskNotFound => some .taskNotFound
  else
    some (.fetchHttpError f.code)

/-- The `while True` poll loop of `run_flux`.  `jit i` is the value of the
`i`-th `random.randint(0, 1000)` draw, `n` the backoff counter (initialized
to `1` and, as in the source, passed on unchanged), `i` the iteration index
and `fetches` the remaining fetch responses the environment will deliver
(`exhausted` when the supply runs out while still polling).  Each iteration
sleeps, then fetches. -/
def pollLoop (jit : Nat → Nat) (n : Nat) (i : Nat) :
    List FetchWire → RunTrace
  | [] => { outcome := .exhausted, fetchCount := 0, sleeps := [] }
  | f :: rest =>
    let d := sleepDur n (jit i)
    match classifyFetch f with
    | some o => { outcome := o, fetchCount := 1, sleeps := [d] }
    | none =>
      let t := pollLoop jit n (i + 1) rest
      { outcome := t.outcome, fetchCount := t.fetchCount + 1, sleeps := d :: t.sleeps }

/-- `run_flux`: POST the job (`res.raise_for_status()` fails on any
non-2xx code), decode the `AsyncResponse`, then enter the poll loop with
backoff counter `n = 1`. -/
def run_flux (submit : SubmitWire) (jit : Nat → Nat)
    (fetches : List FetchWire) : RunTrace :=
  if 200 ≤ submit.code ∧ submit.code ≤ 299 then
    match submit.idField with
    | none => { outcome := .submitDecodeError, fetchCount := 0, sleeps := [] }
    | some _ => pollLoop jit 1 0 fetches
  else
    { outcome := .submitHttpError submit.code, fetchCount := 0, sleeps := [] }

/-- The `ImageRequest` pydantic model, with the source's defaults.  Fields
carry the raw values supplied at construction; the declared constraints are
checked by `validateImageRequest`. -/
structure ImageRequest where
  prompt : String := "ein fantastisches bild"
  width : Int := 1024
  height : Int := 1024
  steps : Option Int := none
  prompt_upsampling : Bool := false
  seed : Option Int := none
  guidance : Option ℚ := none
  safety_tolerance : Option Int := some 2
  interval : Option Int := none
deriving DecidableEq, Repr

/-- `width: int = Field(1024, ge=256, le=1440, multiple_of=32)`. -/
def widthOK (r : ImageRequest) : Prop :=
  256 ≤ r.width ∧ r.width ≤ 1440 ∧ r.width % 32 = 0

/-- `height: int = Field(1024, ge=256, le=1440, multiple_of=32)`. -/
def heightOK (r : ImageRequest) : Prop :=
  256 ≤ r.height ∧ r.height ≤ 1440 ∧ r.height % 32 = 0

/-- `guidance: float | None = Field(None, ge=1.5, le=5.0)` (the bound check
on a present value). -/
def guidanceOK (g : ℚ) : Prop := 3 / 2 ≤ g ∧ g ≤ 5

/-- `safety_tolerance: int | None = Field(2, ge=0, le=6)`. -/
def safetyToleranceOK (t : Int) : Prop := 0 ≤ t ∧ t ≤ 6

/-- `interval: int | None = Field(None, ge=1, le=4)`. -/
def intervalOK (t : Int) : Prop := 1 ≤ t ∧ t ≤ 4

instance (r : ImageRequest) : Decidable (widthOK r) := by
  unfold widthOK; infer_instance

instance (r : ImageRequest) : Decidable (heightOK r) := by
  unfold heightOK; infer_instance

instance (g : ℚ) : Decidable (guidanceOK g) := by
  unfold guidanceOK; infer_instance

instance (t : Int) : Decidable (safetyToleranceOK t) := by
  unfold safetyToleranceOK; infer_instance

instance (t : Int) : Decidable (intervalOK t) := by
  unfold intervalOK; infer_instance

/-- pydantic validation of an `ImageRequest` construction: every declared
field constraint is checked and the names of all violated fields are
collected (pydantic raises a single `ValidationError` listing one entry per
failing field).  An empty list means construction succeeds. -/
def validateImageRequest (r : ImageRequest) : List String :=
  (if widthOK r then [] else ["width"]) ++
  (if heightOK r then [] else ["height"]) ++
  (match r.seed with
   | none => []
   | some s => if 0 ≤ s then [] else ["seed"]) ++
  (match r.guidance with
   | none => []
   | some g => if guidanceOK g then [] else ["guidance"]) ++
  (match r.safety_tolerance with
   | none => []
   | some t => if safetyToleranceOK t then [] else ["safety_tolerance"]) ++
  (match r.interval with
   | none => []
   | some t => if intervalOK t then [] else ["interval"])

/-- A JSON value as produced by `model_dump()` for this model's fields. -/
inductive JVal
  | s (v : String)
  | i (v : Int)
  | b (v : Bool)
  | q (v : ℚ)
  | null
deriving DecidableEq, Repr

/-- An optional int field in the dump (`None` serializes to `null`). -/
def JVal.optInt : Option Int → JVal
  | none => .null
  | some v => .i v

/-- An optional float field in the dump (`None` serializes to `null`). -/
def JVal.optQ : Option ℚ → JVal
  | none => .null
  | some v => .q v

/-- `image_request_body.model_dump()`: the JSON payload of the submit POST,
one key per model field (pydantic v2 includes every field, serializing
`None` as `null`).  Note there is no `variant` key: the variant only
parameterizes the URL. -/
def ImageRequest.model_dump (r : ImageRequest) : List (String × JVal) :=
  [("prompt", .s r.prompt),
   ("width", .i r.width),
   ("height", .i r.height),
   ("steps", .optInt r.steps),
   ("prompt_upsampling", .b r.prompt_upsampling),
   ("seed", .optInt r.seed),
   ("guidance", .optQ r.guidance),
   ("safety_tolerance", .optInt r.safety_tolerance),
   ("interval", .optInt r.interval)]

/-- Trace of the whole program (`main`): pydantic validates the
`ImageRequest` construction before `run_flux` is called, so a validation
failure happens before any network call.  `submitCount` counts submit POSTs,
`fetchCount` the `get_result` GETs. -/
structure ProgTrace where
  failedFields : List String
  outcome : Option Outcome
  submitCount : Nat
  fetchCount : Nat
  sleeps : List ℚ
deriving DecidableEq, Repr

/-- `main` after argument parsing: construct (validate) the request, then
run `run_flux` against the environment. -/
def runProgram (raw : ImageRequest) (submit : SubmitWire) (jit : Nat → Nat)
    (fetches : List FetchWire) : ProgTrace :=
  match validateImageRequest raw with
  | [] =>
    let t := run_flux submit jit fetches
    { failedFields := [], outcome := some t.outcome, submitCount := 1,
      fetchCount := t.fetchCount, sleeps := t.sleeps }
  | errs =>
    { failedFields := errs, outcome := none, submitCount := 0,
      fetchCount := 0, sleeps := [] }

/-- The width error entry appears in the collected validation errors
exactly when the declared width constraints are violated. -/
theorem width_mem_validate (r : ImageRequest) :
    "width" ∈ validateImageRequest r ↔ ¬ widthOK r := by
  unfold validateImageRequest
  rcases hs : r.seed with _ | s <;> rcases hg : r.guidance with _ | g <;>
    rcases ht : r.safety_tolerance with _ | t <;>
    rcases hi : r.interval with _ | v <;>
    split_ifs <;> simp_all

/-- The height error entry appears exactly when the height constraints are
violated. -/
theorem height_mem_validate (r : ImageRequest) :
    "height" ∈ validateImageRequest r ↔ ¬ heightOK r := by
  unfold validateImageRequest
  rcases hs : r.seed with _ | s <;> rcases hg : r.guidance with _ | g <;>
    rcases ht : r.safety_tolerance with _ | t <;>
    rcases hi : r.interval with _ | v <;>
    split_ifs <;> simp_all

/-- The seed error entry appears exactly when a present seed is negative
(`NonNegativeInt`). -/
theorem seed_mem_validate (r : ImageRequest) (s : Int) (hs : r.seed = some s) :
    ("seed" ∈ validateImageRequest r ↔ s < 0) := by
  unfold validateImageRequest
  rw [hs]
  rcases hg : r.guidance with _ | g <;>
    rcases ht : r.safety_tolerance with _ | t <;>
    rcases hi : r.interval with _ | v <;>
    split_ifs <;> simp_all [Int.not_le]

/-- The guidance error entry appears exactly when a present guidance value
is out of bounds. -/
theorem guidance_mem_validate (r : ImageRequest) (g : ℚ)
    (hg : r.guidance = some g) :
    ("guidance" ∈ validateImageRequest r ↔ ¬ guidanceOK g) := by
  unfold validateImageRequest
  rw [hg]
  rcases hs : r.seed with _ | s <;>
    rcases ht : r.safety_tolerance with _ | t <;>
    rcases hi : r.interval with _ | v <;>
    split_ifs <;> simp_all

/-- An absent guidance value is never reported. -/
theorem guidance_none_not_mem (r : ImageRequest) (hg : r.guidance = none) :
    "guidance" ∉ validateImageRequest r := by
  unfold validateImageRequest
  rw [hg]
  rcases hs : r.seed with _ | s <;>
    rcases ht : r.safety_tolerance with _ | t <;>
    rcases hi : r.interval with _ | v <;>
    split_ifs <;> simp_all

/-- The safety_tolerance error entry appears exactly when a present value
is out of bounds. -/
theorem safety_mem_validate (r : ImageRequest) (t : Int)
    (ht : r.safety_tolerance = some t) :
    ("safety_tolerance" ∈ validateImageRequest r ↔ ¬ safetyToleranceOK t) := by
  unfold validateImageRequest
  rw [ht]
  rcases hs : r.seed with _ | s <;> rcases hg : r.guidance with _ | g <;>
    rcases hi : r.interval with _ | v <;>
    split_ifs <;> simp_all

/-- An absent safety_tolerance value is never reported. -/
theorem safety_none_not_mem (r : ImageRequest)
    (ht : r.safety_tolerance = none) :
    "safety_tolerance" ∉ validateImageRequest r := by
  unfold validateImageRequest
  rw [ht]
  rcases hs : r.seed with _ | s <;> rcases hg : r.guidance with _ | g <;>
    rcases hi : r.interval with _ | v <;>
    split_ifs <;> simp_all

/-- The interval error entry appears exactly when a present value is out of
bounds. -/
theorem interval_mem_validate (r : ImageRequest) (t : Int)
    (hi : r.interval = some t) :
    ("interval" ∈ validateImageRequest r ↔ ¬ intervalOK t) := by
  unfold validateImageRequest
  rw [hi]
  rcases hs : r.seed with _ | s <;> rcases hg : r.guidance with _ | g <;>
    rcases ht : r.safety_tolerance with _ | t <;>
    split_ifs <;> simp_all

/-- An absent interval value is never reported. -/
theorem interval_none_not_mem (r : ImageRequest) (hi : r.interval = none) :
    "interval" ∉ validateImageRequest r := by
  unfold validateImageRequest
  rw [hi]
  rcases hs : r.seed with _ | s <;> rcases hg : r.guidance with _ | g <;>
    rcases ht : r.safety_tolerance with _ | t <;>
    split_ifs <;> simp_all

/-- A failed construction stops the program before any network call. -/
theorem runProgram_validation_stops (r : ImageRequest)
    (h : validateImageRequest r ≠ []) (submit : SubmitWire)
    (jit : Nat → Nat) (fetches : List FetchWire) :
    (runProgram r submit jit fetches).submitCount = 0 ∧
    (runProgram r submit jit fetches).fetchCount = 0 := by
  unfold runProgram
  cases hv : validateImageRequest r with
  | nil => exact absurd hv h
  | cons a l => exact ⟨rfl, rfl⟩

/-- The mock submit response of the spec's poll scenario: 2xx with body
containing the id `"abc"`. -/
def mockSubmit : SubmitWire := { code := 200, idField := some "abc" }

/-- The first fetch body of the spec's mock scenario, exactly as the spec
writes it: status `Pending` and no `result` key at all. -/
def mockPendingNoResult : FetchWire :=
  { code := 200, idField := some "abc", statusField := some "Pending",
    resultField := none }

/-- A `Pending` fetch body that carries the (required) `result` key with
value `null`. -/
def mockPendingNull : FetchWire :=
  { code := 200, idField := some "abc", statusField := some "Pending",
    resultField := some none }

/-- The `Ready` fetch body of the spec's mock scenario. -/
def mockReady : FetchWire :=
  { code := 200, idField := some "abc", statusField := some "Ready",
    resultField := some (some [("sample", "http://x/img.png")]) }

/-- C1 (counterexample): on the spec's mock exactly as written — first
fetch body `{"id":"abc","status":"Pending"}` with no `result` key — the
`ResultResponse` model (pydantic v2: `result: dict | None` without a
default is required) fails to decode, so the run ends after one fetch with
a decode failure and never yields the URL, contradicting the claimed two
fetches and terminal URL. -/
theorem C1_counterexample :
    (run_flux mockSubmit (fun _ => 0) [mockPendingNoResult, mockReady]).outcome
        = Outcome.fetchDecodeError ∧
    (run_flux mockSubmit (fun _ => 0) [mockPendingNoResult, mockReady]).fetchCount
        = 1 := by
  exact ⟨rfl, rfl⟩

/-- C1 (amended): if submit returns id `"abc"`, the first fetch returns
status `Pending` with the `result` key present as `null`, and the second
fetch returns status `Ready` with result `{"sample":"http://x/img.png"}`,
then (for every jitter stream) the loop sleeps at least once, issues
exactly two fetch calls, and yields the URL `http://x/img.png` as the
terminal outcome. -/
theorem C1_poll_two_fetches (jit : Nat → Nat) :
    (run_flux mockSubmit jit [mockPendingNull, mockReady]).outcome
        = Outcome.readyUrl "http://x/img.png" ∧
    (run_flux mockSubmit jit [mockPendingNull, mockReady]).fetchCount = 2 ∧
    1 ≤ (run_flux mockSubmit jit [mockPendingNull, mockReady]).sleeps.length := by
  refine ⟨rfl, rfl, ?_⟩
  show 1 ≤ 2
  exact one_le_two

/-- C4 (counterexample): the serialized payload of a default-constructed
`ImageRequest` has no `variant` key at all, so its `variant` key does not
equal the default variant's external string `"flux-pro-1.1"`. -/
theorem C4_counterexample :
    (ImageRequest.model_dump {}).lookup "variant" = none ∧
    ¬ ((ImageRequest.model_dump {}).lookup "variant"
        = some (JVal.s (ImageVariant.value ImageVariant.proplus))) := by
  exact ⟨rfl, by decide⟩

/-- C4 (amended): serializing a default-constructed `ImageRequest`
(prompt `"ein fantastisches bild"`, width = height = 1024) produces a
payload whose `width` and `height` keys equal 1024; the payload has no
`variant` key — the chosen variant's external string (`"flux-pro-1.1"` for
the default variant) instead parameterizes the submission URL. -/
theorem C4_default_dump :
    (ImageRequest.model_dump {}).lookup "width" = some (JVal.i 1024) ∧
    (ImageRequest.model_dump {}).lookup "height" = some (JVal.i 1024) ∧
    (ImageRequest.model_dump {}).lookup "prompt"
        = some (JVal.s "ein fantastisches bild") ∧
    (ImageRequest.model_dump {}).lookup "variant" = none ∧
    bflUrl ImageVariant.proplus = "https://api.bfl.ml/v1/flux-pro-1.1" := by
  exact ⟨rfl, rfl, rfl, rfl, rfl⟩

/-- C6: if the submit call returns a non-2xx HTTP status,
`res.raise_for_status()` fails with the HTTP error carrying that status
code, and no fetch (`get_result`) call is ever issued. -/
theorem C6_submit_http_error (submit : SubmitWire) (jit : Nat → Nat)
    (fetches : List FetchWire)
    (h : ¬ (200 ≤ submit.code ∧ submit.code ≤ 299)) :
    run_flux submit jit fetches
      = { outcome := .submitHttpError submit.code, fetchCount := 0,
          sleeps := [] } := by
  unfold run_flux
  rw [if_neg h]

/-- C6 (witness): a 404 submit response ends the run with the HTTP error
outcome and zero fetches. -/
theorem C6_witness :
    run_flux { code := 404, idField := some "abc" } (fun _ => 0) [mockReady]
      = { outcome := .submitHttpError 404, fetchCount := 0, sleeps := [] } :=
  C6_submit_http_error _ _ _ (by decide)

/-- C2: width and height pass validation exactly when they lie in
[256, 1440] and are multiples of 32; a present guidance value exactly when
it lies in [1.5, 5.0]; a present safety_tolerance exactly when in [0, 6]; a
present interval exactly when in [1, 4] (absent optional values are never
reported); and when any field fails validation, the program stops before
any network call (no submit, no fetch). -/
theorem C2_validation_bounds (r : ImageRequest) :
    ("width" ∈ validateImageRequest r
        ↔ ¬ (256 ≤ r.width ∧ r.width ≤ 1440 ∧ (32 : Int) ∣ r.width)) ∧
    ("height" ∈ validateImageRequest r
        ↔ ¬ (256 ≤ r.height ∧ r.height ≤ 1440 ∧ (32 : Int) ∣ r.height)) ∧
    (∀ g, r.guidance = some g →
      ("guidance" ∈ validateImageRequest r ↔ ¬ ((3 : ℚ) / 2 ≤ g ∧ g ≤ 5))) ∧
    (r.guidance = none → "guidance" ∉ validateImageRequest r) ∧
    (∀ t, r.safety_tolerance = some t →
      ("safety_tolerance" ∈ validateImageRequest r ↔ ¬ (0 ≤ t ∧ t ≤ 6))) ∧
    (r.safety_tolerance = none →
      "safety_tolerance" ∉ validateImageRequest r) ∧
    (∀ t, r.interval = some t →
      ("interval" ∈ validateImageRequest r ↔ ¬ (1 ≤ t ∧ t ≤ 4))) ∧
    (r.interval = none → "interval" ∉ validateImageRequest r) ∧
    (validateImageRequest r ≠ [] →
      ∀ submit jit fetches,
        (runProgram r submit jit fetches).submitCount = 0 ∧
        (runProgram r submit jit fetches).fetchCount = 0) := by
  refine ⟨?_, ?_, ?_, guidance_none_not_mem r, ?_, safety_none_not_mem r,
    ?_, interval_none_not_mem r, runProgram_validation_stops r⟩
  · rw [width_mem_validate]
    unfold widthOK
    rw [Int.dvd_iff_emod_eq_zero]
  · rw [height_mem_validate]
    unfold heightOK
    rw [Int.dvd_iff_emod_eq_zero]
  · intro g hg
    rw [guidance_mem_validate r g hg]
    unfold guidanceOK
    exact Iff.rfl
  · intro t ht
    rw [safety_mem_validate r t ht]
    unfold safetyToleranceOK
    exact Iff.rfl
  · intro t ht
    rw [interval_mem_validate r t ht]
    unfold intervalOK
    exact Iff.rfl

/-- C2 (witness): width 300 (in range but not a multiple of 32) is
reported, the unset guidance is not, and the program with this request
makes no network call. -/
theorem C2_witness :
    "width" ∈ validateImageRequest { width := 300 } ∧
    "guidance" ∉ validateImageRequest { width := 300 } ∧
    (runProgram { width := 300 } mockSubmit (fun _ => 0) []).submitCount = 0 := by
  have h := C2_validation_bounds { width := 300 }
  exact ⟨h.1.mpr (by decide), h.2.2.2.1 rfl,
    (h.2.2.2.2.2.2.2.2 (by decide) mockSubmit (fun _ => 0) []).1⟩

/-- C9: when a construction violates the bounds of several fields, the
collected validation errors contain an entry for every failing field, not
only the first one encountered. -/
theorem C9_all_failing_fields (r : ImageRequest) :
    (¬ widthOK r → "width" ∈ validateImageRequest r) ∧
    (¬ heightOK r → "height" ∈ validateImageRequest r) ∧
    (∀ s, r.seed = some s → s < 0 → "seed" ∈ validateImageRequest r) ∧
    (∀ g, r.guidance = some g → ¬ guidanceOK g →
      "guidance" ∈ validateImageRequest r) ∧
    (∀ t, r.safety_tolerance = some t → ¬ safetyToleranceOK t →
      "safety_tolerance" ∈ validateImageRequest r) ∧
    (∀ t, r.interval = some t → ¬ intervalOK t →
      "interval" ∈ validateImageRequest r) := by
  refine ⟨(width_mem_validate r).mpr, (height_mem_validate r).mpr,
    ?_, ?_, ?_, ?_⟩
  · intro s hs hneg
    exact (seed_mem_validate r s hs).mpr hneg
  · intro g hg hbad
    exact (guidance_mem_validate r g hg).mpr hbad
  · intro t ht hbad
    exact (safety_mem_validate r t ht).mpr hbad
  · intro t ht hbad
    exact (interval_mem_validate r t ht).mpr hbad

/-- C9 (witness): a request violating width, height and guidance at once
has all three fields reported. -/
theorem C9_witness :
    "width" ∈ validateImageRequest
        { width := 100, height := 2000, guidance := some 10 } ∧
    "height" ∈ validateImageRequest
        { width := 100, height := 2000, guidance := some 10 } ∧
    "guidance" ∈ validateImageRequest
        { width := 100, height := 2000, guidance := some 10 } := by
  have h := C9_all_failing_fields
    { width := 100, height := 2000, guidance := some 10 }
  exact ⟨h.1 (by decide), h.2.1 (by decide), h.2.2.2.1 10 rfl (by norm_num [guidanceOK])⟩

/-- A fetch body with status `"Task not found"` and result `null`. -/
def mockTaskNotFound : FetchWire :=
  { code := 200, idField := some "abc", statusField := some "Task not found",
    resultField := some none }

/-- A fetch body whose status string is not one of the six enum values. -/
def mockBogus : FetchWire :=
  { code := 200, idField := some "abc", statusField := some "Bogus",
    resultField := some none }

/-- The decoded form of `mockReady`. -/
def mockReadyDecoded : ResultResponse :=
  { id := "abc", status := .Ready,
    result := some [("sample", "http://x/img.png")] }

/-- A successful submit makes `run_flux` enter the poll loop with backoff
counter 1 and iteration index 0. -/
theorem run_flux_poll (submit : SubmitWire) (jit : Nat → Nat)
    (fetches : List FetchWire) (jid : String)
    (hc : 200 ≤ submit.code ∧ submit.code ≤ 299)
    (hid : submit.idField = some jid) :
    run_flux submit jit fetches = pollLoop jit 1 0 fetches := by
  unfold run_flux
  rw [if_pos hc, hid]

/-- C3: a fetch response with 2xx code and well-formed body whose status
string is not one of the six recognized enum values makes the client fail
fast: the run ends with the protocol failure after exactly that one fetch,
with no retry and no further fetch. -/
theorem C3_unrecognized_status (submit : SubmitWire) (jit : Nat → Nat)
    (f : FetchWire) (rest : List FetchWire) (jid fid s : String)
    (hc : 200 ≤ submit.code ∧ submit.code ≤ 299)
    (hid : submit.idField = some jid)
    (hfc : 200 ≤ f.code ∧ f.code ≤ 299)
    (hfid : f.idField = some fid)
    (hst : f.statusField = some s)
    (hbad : StatusResponse.fromString s = none) :
    run_flux submit jit (f :: rest)
      = { outcome := .protocolError s, fetchCount := 1,
          sleeps := [sleepDur 1 (jit 0)] } := by
  rw [run_flux_poll submit jit (f :: rest) jid hc hid]
  have hdec : decodeResult f = .error (.badStatus s) := by
    simp only [decodeResult, hfid, hst, hbad]
  simp [pollLoop, classifyFetch, if_pos hfc, hdec]

/-- C3 (witness): a fetch with status string `"Bogus"` ends the run with
the protocol failure after one fetch. -/
theorem C3_witness :
    run_flux mockSubmit (fun _ => 0) [mockBogus]
      = { outcome := .protocolError "Bogus", fetchCount := 1,
          sleeps := [sleepDur 1 0] } :=
  C3_unrecognized_status mockSubmit (fun _ => 0) mockBogus [] "abc" "abc"
    "Bogus" (by decide) rfl (by decide) rfl rfl rfl

/-- Every sleep recorded by the poll loop is `sleepDur n (jit k)` for some
draw index `k`: the backoff counter `n` is the same in every iteration. -/
theorem pollLoop_sleep_srcs (jit : Nat → Nat) (n : Nat)
    (fetches : List FetchWire) :
    ∀ (i : Nat) (d : ℚ), d ∈ (pollLoop jit n i fetches).sleeps →
      ∃ k, d = sleepDur n (jit k) := by
  induction fetches with
  | nil =>
    intro i d hd
    simp [pollLoop] at hd
  | cons f rest ih =>
    intro i d hd
    simp only [pollLoop] at hd
    cases hc : classifyFetch f with
    | some o =>
      rw [hc] at hd
      simp at hd
      exact ⟨i, hd⟩
    | none =>
      rw [hc] at hd
      simp at hd
      rcases hd with h | h
      · exact ⟨i, h⟩
      · exact ih (i + 1) d h

/-- C5: the backoff counter keeps its initial value 1 on every iteration,
so every sleep lasts `0.5 * 2^1 + j/1000 = 1 + j/1000` seconds for that
iteration's jitter draw `j`; with `randint(0, 1000)` draws every sleep
lies between 1.0 and 2.0 seconds. -/
theorem C5_constant_backoff (submit : SubmitWire) (jit : Nat → Nat)
    (fetches : List FetchWire) (hjit : ∀ i, jit i ≤ 1000) :
    ∀ d ∈ (run_flux submit jit fetches).sleeps,
      (∃ j : ℕ, j ≤ 1000 ∧ d = 1 + (j : ℚ) / 1000) ∧ 1 ≤ d ∧ d ≤ 2 := by
  intro d hd
  have hsrc : ∃ k, d = sleepDur 1 (jit k) := by
    unfold run_flux at hd
    split at hd
    · cases hsub : submit.idField with
      | none => rw [hsub] at hd; simp at hd
      | some jid => rw [hsub] at hd; exact pollLoop_sleep_srcs jit 1 fetches 0 d hd
    · simp at hd
  obtain ⟨k, rfl⟩ := hsrc
  have hk : jit k ≤ 1000 := hjit k
  have hkq : (jit k : ℚ) ≤ 1000 := by exact_mod_cast hk
  have h0 : (0 : ℚ) ≤ (jit k : ℚ) := by positivity
  have hform : sleepDur 1 (jit k) = 1 + (jit k : ℚ) / 1000 := by
    unfold sleepDur
    ring_nf
  refine ⟨⟨jit k, hk, hform⟩, ?_, ?_⟩
  · rw [hform]
    have : (0 : ℚ) ≤ (jit k : ℚ) / 1000 := by positivity
    linarith
  · rw [hform]
    have : (jit k : ℚ) / 1000 ≤ 1 := by
      rw [div_le_one (by norm_num)]
      exact hkq
    linarith

/-- C5 (witness): with a zero jitter stream the single sleep of a
one-fetch run lasts exactly 1 second, within [1, 2]. -/
theorem C5_witness :
    (∃ j : ℕ, j ≤ 1000 ∧ (1 : ℚ) = 1 + (j : ℚ) / 1000) ∧
    1 ≤ (1 : ℚ) ∧ (1 : ℚ) ≤ 2 := by
  have h1 : sleepDur 1 0 = (1 : ℚ) := by
    unfold sleepDur
    norm_num
  have hmem : (1 : ℚ) ∈ (run_flux mockSubmit (fun _ => 0) [mockTaskNotFound]).sleeps := by
    have hs : (run_flux mockSubmit (fun _ => 0) [mockTaskNotFound]).sleeps
        = [sleepDur 1 0] := rfl
    rw [hs, h1]
    exact List.mem_singleton.mpr rfl
  exact C5_constant_backoff mockSubmit (fun _ => 0) [mockTaskNotFound]
    (fun i => Nat.zero_le 1000) 1 hmem

/-- C7: a fetch response that decodes with status `Task not found` makes
the poll loop terminate after exactly that one fetch, with the
task-not-found outcome (no error, no URL); the same single-fetch
termination with no payload holds for `Request Moderated` and
`Content Moderated`. -/
theorem C7_single_fetch_terminal (submit : SubmitWire) (jit : Nat → Nat)
    (f : FetchWire) (rest : List FetchWire) (jid : String)
    (r : ResultResponse)
    (hc : 200 ≤ submit.code ∧ submit.code ≤ 299)
    (hid : submit.idField = some jid)
    (hfc : 200 ≤ f.code ∧ f.code ≤ 299)
    (hdec : decodeResult f = .ok r) :
    (r.status = .TaskNotFound →
      run_flux submit jit (f :: rest)
        = { outcome := .taskNotFound, fetchCount := 1,
            sleeps := [sleepDur 1 (jit 0)] }) ∧
    (r.status = .RequestModerated →
      run_flux submit jit (f :: rest)
        = { outcome := .requestModerated, fetchCount := 1,
            sleeps := [sleepDur 1 (jit 0)] }) ∧
    (r.status = .ContentModerated →
      run_flux submit jit (f :: rest)
        = { outcome := .contentModerated, fetchCount := 1,
            sleeps := [sleepDur 1 (jit 0)] }) := by
  refine ⟨?_, ?_, ?_⟩ <;> intro hst <;>
    rw [run_flux_poll submit jit (f :: rest) jid hc hid] <;>
    simp [pollLoop, classifyFetch, if_pos hfc, hdec, hst]

/-- C7 (witness): a single `"Task not found"` fetch ends the run with the
task-not-found outcome after one fetch. -/
theorem C7_witness :
    run_flux mockSubmit (fun _ => 0) [mockTaskNotFound]
      = { outcome := .taskNotFound, fetchCount := 1,
          sleeps := [sleepDur 1 0] } :=
  (C7_single_fetch_terminal mockSubmit (fun _ => 0) mockTaskNotFound []
    "abc" { id := "abc", status := .TaskNotFound, result := none }
    (by decide) rfl (by decide) rfl).1 rfl

/-- C8: on a `Ready` fetch the result handler extracts the `"sample"` key
of the result mapping as the terminal URL; if the result mapping is null
or lacks the `"sample"` key, the run fails with the missing-field outcome
instead of yielding a URL. -/
theorem C8_ready_sample (submit : SubmitWire) (jit : Nat → Nat)
    (f : FetchWire) (rest : List FetchWire) (jid : String)
    (r : ResultResponse)
    (hc : 200 ≤ submit.code ∧ submit.code ≤ 299)
    (hid : submit.idField = some jid)
    (hfc : 200 ≤ f.code ∧ f.code ≤ 299)
    (hdec : decodeResult f = .ok r)
    (hready : r.status = .Ready) :
    (r.result = none →
      run_flux submit jit (f :: rest)
        = { outcome := .missingField, fetchCount := 1,
            sleeps := [sleepDur 1 (jit 0)] }) ∧
    (∀ dict, r.result = some dict → dict.lookup "sample" = none →
      run_flux submit jit (f :: rest)
        = { outcome := .missingField, fetchCount := 1,
            sleeps := [sleepDur 1 (jit 0)] }) ∧
    (∀ dict url, r.result = some dict → dict.lookup "sample" = some url →
      run_flux submit jit (f :: rest)
        = { outcome := .readyUrl url, fetchCount := 1,
            sleeps := [sleepDur 1 (jit 0)] }) := by
  refine ⟨?_, ?_, ?_⟩
  · intro hres
    rw [run_flux_poll submit jit (f :: rest) jid hc hid]
    simp [pollLoop, classifyFetch, if_pos hfc, hdec, hready, readyOutcome, hres]
  · intro dict hres hlook
    rw [run_flux_poll submit jit (f :: rest) jid hc hid]
    simp [pollLoop, classifyFetch, if_pos hfc, hdec, hready, readyOutcome,
      hres, hlook]
  · intro dict url hres hlook
    rw [run_flux_poll submit jit (f :: rest) jid hc hid]
    simp [pollLoop, classifyFetch, if_pos hfc, hdec, hready, readyOutcome,
      hres, hlook]

/-- C8 (witness): a `Ready` fetch whose result carries
`"sample": "http://x/img.png"` ends the run with that URL. -/
theorem C8_witness :
    run_flux mockSubmit (fun _ => 0) [mockReady]
      = { outcome := .readyUrl "http://x/img.png", fetchCount := 1,
          sleeps := [sleepDur 1 0] } :=
  (C8_ready_sample mockSubmit (fun _ => 0) mockReady [] "abc"
    mockReadyDecoded (by decide) rfl (by decide) rfl rfl).2.2
    [("sample", "http://x/img.png")] "http://x/img.png" rfl rfl

/-- C10: every successfully decoded `ResultResponse` got its status by
parsing the wire string through the six-valued enum, so its status is one
of the six variants and the fallback branch of the status dispatch is
unreachable for decoded responses. -/
theorem C10_decoded_status_recognized (w : FetchWire) (r : ResultResponse)
    (h : decodeResult w = .ok r) :
    (∃ s, w.statusField = some s ∧
      StatusResponse.fromString s = some r.status) ∧
    (r.status = .TaskNotFound ∨ r.status = .Pending ∨
     r.status = .RequestModerated ∨ r.status = .ContentModerated ∨
     r.status = .Ready ∨ r.status = .Error) := by
  constructor
  · have h' := h
    unfold decodeResult at h'
    rcases hid : w.idField with _ | i
    · simp only [hid] at h'
      exact absurd h' (by simp)
    simp only [hid] at h'
    rcases hst : w.statusField with _ | s
    · simp only [hst] at h'
      exact absurd h' (by simp)
    simp only [hst] at h'
    rcases hfs : StatusResponse.fromString s with _ | st
    · simp only [hfs] at h'
      exact absurd h' (by simp)
    simp only [hfs] at h'
    rcases hres : w.resultField with _ | res
    · simp only [hres] at h'
      exact absurd h' (by simp)
    simp only [hres] at h'
    injection h' with h''
    refine ⟨s, rfl, ?_⟩
    rw [← h'']
    exact hfs
  · cases hs : r.status <;> tauto

/-- C10 (witness): the decoded `Ready` mock response has one of the six
recognized statuses, obtained by parsing its wire status string. -/
theorem C10_witness :
    (∃ s, mockReady.statusField = some s ∧
      StatusResponse.fromString s = some mockReadyDecoded.status) ∧
    (mockReadyDecoded.status = .TaskNotFound ∨
     mockReadyDecoded.status = .Pending ∨
     mockReadyDecoded.status = .RequestModerated ∨
     mockReadyDecoded.status = .ContentModerated ∨
     mockReadyDecoded.status = .Ready ∨
     mockReadyDecoded.status = .Error) :=
  C10_decoded_status_recognized mockReady mockReadyDecoded rfl
